import Mathlib

/-!
Shallow embedding of the WarehouseMeals Chrome extension background worker
(`src/background.js`) and proofs about its sync orchestration, authenticated
client and cross-context messaging.

JavaScript values are modelled by the inductive `Value`; JS truthiness,
property access and string coercion are modelled by `Value.truthy`,
`Value.getField` and `Value.jsToString`.  Asynchronous effects (network calls,
port messages, timer delays, progress broadcasts) are made explicit: each
embedded function takes an environment describing the outcome of every
outbound call and returns, besides its result, the final mutable state and a
trace of the observable events it performed, in order.
-/

namespace WarehouseMeals

/-- A JavaScript value, as handled by the extension code.  Objects are
association lists of fields (the records exchanged here have distinct keys,
so lookup order is immaterial). -/
inductive Value where
  | undefined
  | null
  | bool (b : Bool)
  | num (n : Int)
  | str (s : String)
  | arr (elems : List Value)
  | obj (fields : List (String × Value))

/-- First-match lookup in an object's field list; a missing field reads as
`undefined`, as in JS. -/
def lookupField : List (String × Value) → String → Value
  | [], _ => .undefined
  | (k, v) :: rest, key => if k == key then v else lookupField rest key

/-- JS property access `v.key`.  On non-objects it yields `undefined`
(the embedded code only dereferences values it has already checked to be
truthy, so the JS `TypeError` on `null`/`undefined` access never occurs). -/
def Value.getField : Value → String → Value
  | .obj fields, key => lookupField fields key
  | _, _ => .undefined

/-- JS truthiness: `undefined`, `null`, `false`, `0` and `""` are falsy,
everything else (including empty arrays and objects) is truthy. -/
def Value.truthy : Value → Bool
  | .undefined => false
  | .null => false
  | .bool b => b
  | .num n => n != 0
  | .str s => s != ""
  | .arr _ => true
  | .obj _ => true

/-- Whether `v` is `null` or `undefined` — exactly the values short-circuited by the
JS nullish-coalescing operator `??`. -/
def Value.isNullish : Value → Bool
  | .null => true
  | .undefined => true
  | _ => false

/-- JS `a ?? b`. -/
def nullishOr (v dflt : Value) : Value :=
  if v.isNullish then dflt else v

/-- JS `String(v)` as used in error messages and template literals.  Arrays
and objects get a coarse rendering; the embedded code only stringifies
primitive message values. -/
def Value.jsToString : Value → String
  | .undefined => "undefined"
  | .null => "null"
  | .bool b => if b then "true" else "false"
  | .num n => toString n
  | .str s => s
  | .arr _ => ""
  | .obj _ => "[object Object]"

/-! ### `filterReceiptData` (src/background.js lines 64–84) -/

/-- The documented top-level allow-list of the import payload, in the order
`filterReceiptData` writes the fields. -/
def receiptAllowList : List String :=
  ["transactionBarcode", "transactionDateTime", "warehouseName",
   "warehouseNumber", "subTotal", "taxes", "total", "instantSavings",
   "totalItemCount", "itemArray"]

/-- The documented per-line-item allow-list. -/
def itemAllowList : List String :=
  ["itemNumber", "itemDescription01", "itemDescription02", "amount", "unit",
   "itemUnitPriceAmount"]

/-- The line-item projection inside `filterReceiptData`. -/
def filterItemData (item : Value) : Value :=
  .obj [("itemNumber", item.getField "itemNumber"),
        ("itemDescription01", item.getField "itemDescription01"),
        ("itemDescription02", item.getField "itemDescription02"),
        ("amount", item.getField "amount"),
        ("unit", item.getField "unit"),
        ("itemUnitPriceAmount", item.getField "itemUnitPriceAmount")]

/-- JS `receipt.itemArray || []`: a falsy `itemArray` is replaced by the empty
array before mapping.  (A truthy non-array would make the JS `.map` throw;
the retailer API always supplies an array, and such a crash would abort the
run before any payload is submitted, so it is modelled as the empty list.) -/
def itemArrayOf (receipt : Value) : List Value :=
  match receipt.getField "itemArray" with
  | .arr items => items
  | _ => []

/-- The function `filterReceiptData`: projects a raw receipt detail onto the allow-listed
fields only. -/
def filterReceiptData (receipt : Value) : Value :=
  .obj [("transactionBarcode", receipt.getField "transactionBarcode"),
        ("transactionDateTime", receipt.getField "transactionDateTime"),
        ("warehouseName", receipt.getField "warehouseName"),
        ("warehouseNumber", receipt.getField "warehouseNumber"),
        ("subTotal", receipt.getField "subTotal"),
        ("taxes", receipt.getField "taxes"),
        ("total", receipt.getField "total"),
        ("instantSavings", receipt.getField "instantSavings"),
        ("totalItemCount", receipt.getField "totalItemCount"),
        ("itemArray", .arr ((itemArrayOf receipt).map filterItemData))]

/-- The keys of an object value (empty for non-objects). -/
def objKeys : Value → List String
  | .obj fields => fields.map Prod.fst
  | _ => []

theorem filterReceiptData_keys (receipt : Value) :
    objKeys (filterReceiptData receipt) = receiptAllowList := rfl

theorem filterItemData_keys (item : Value) :
    objKeys (filterItemData item) = itemAllowList := rfl

theorem filterReceiptData_items (receipt : Value) :
    (filterReceiptData receipt).getField "itemArray"
      = .arr ((itemArrayOf receipt).map filterItemData) := by
  simp [filterReceiptData, Value.getField, lookupField]

/-! ### `authenticatedFetch` (src/background.js lines 183–226) -/

/-- An HTTP response as the background worker observes it: `ok` is the 2xx
flag, `jsonBody` is the result of `response.json()` (`none` when the body is
not parseable JSON). -/
structure HttpResponse where
  ok : Bool
  status : Nat
  contentType : Option String
  jsonBody : Option Value

/-- Outcome of one `fetch` call: a response, or a transport-level rejection
(DNS failure, timeout, refused connection). -/
inductive FetchOutcome where
  | success (response : HttpResponse)
  | transportFailure

/-- Environment of one `authenticatedFetch` call: the outcome of its n-th
`fetch` attempt (the url, method and body are fixed for the whole call, so
they are left implicit). -/
structure AuthEnv where
  attempt : Nat → FetchOutcome

/-- Observable events of an `authenticatedFetch` call: each `fetch` attempt
records the bearer token placed in its `Authorization` header. -/
inductive AuthEvent where
  | fetchAttempt (token : String)
  | wait (ms : Nat)
  | tokenCleared

def notConnectedMessage : String :=
  "Not connected to WarehouseMeals. Please connect your account."

def networkErrorMessage : String :=
  "Network error. Please check your connection and try again."

def sessionExpiredMessage : String :=
  "Session expired. Please reconnect your account."

/-- The function `authenticatedFetch`: reads the stored token, injects it as a bearer
header, retries exactly once after a 1s delay on a 401, clears the token and
fails with `SessionExpired` on a second consecutive 401.  Returns the
response (or error message), the token left in storage, and the event
trace. -/
def authenticatedFetch (env : AuthEnv) (stored : Option String) :
    Except String HttpResponse × Option String × List AuthEvent :=
  match stored with
  | none => (.error notConnectedMessage, none, [])
  | some token =>
    match env.attempt 0 with
    | .transportFailure =>
        (.error networkErrorMessage, some token, [.fetchAttempt token])
    | .success response =>
      if response.status == 401 then
        match env.attempt 1 with
        | .transportFailure =>
            (.error networkErrorMessage, some token,
             [.fetchAttempt token, .wait 1000, .fetchAttempt token])
        | .success retryResponse =>
          if retryResponse.status == 401 then
            (.error sessionExpiredMessage, none,
             [.fetchAttempt token, .wait 1000, .fetchAttempt token,
              .tokenCleared])
          else
            (.ok retryResponse, some token,
             [.fetchAttempt token, .wait 1000, .fetchAttempt token])
      else
        (.ok response, some token, [.fetchAttempt token])

/-! ### `sendReceiptsToWarehouseMeals` (src/background.js lines 354–381) -/

/-- Whether the character sequence `s` begins with `p`. -/
def charsStartWith (s p : List Char) : Bool :=
  s.take p.length == p

/-- Whether the character sequence `s` contains `p` as a contiguous run. -/
def charsContain : List Char → List Char → Bool
  | [], p => p.isEmpty
  | c :: rest, p => charsStartWith (c :: rest) p || charsContain rest p

/-- JS `s.startsWith(p)`. -/
def jsStartsWith (s p : String) : Bool :=
  charsStartWith s.toList p.toList

/-- JS `s.includes(p)`. -/
def stringIncludes (s p : String) : Bool :=
  charsContain s.toList p.toList

/-- JS `contentType?.includes('application/json')`. -/
def contentTypeIsJson (response : HttpResponse) : Bool :=
  match response.contentType with
  | none => false
  | some ct => stringIncludes ct "application/json"

def serverErrorMessage (status : Nat) : String :=
  s!"Server error: {status}"

/-- Stand-in for the message of the `SyntaxError` thrown by
`response.json()` on an unparseable body; real such messages never begin
with `Validation failed:` or `Server error:`, which is all the code
inspects. -/
def jsonParseErrorMessage : String := "Unexpected token in JSON"

/-- The message of the error thrown for a non-2xx import response.  Mirrors
the body of `if (!response.ok) { ... }`: inside a JSON body the code throws
`Validation failed: <message>` for a 422 carrying a truthy `message`, or
`Error(json.message || 'Server error: <status>')` otherwise — but the
surrounding `catch` re-throws only messages beginning with
`Validation failed:` or `Server error:` and swallows the rest, after which
the trailing `throw new Error('Server error: <status>')` runs. -/
def importFailureMessage (response : HttpResponse) : String :=
  if contentTypeIsJson response then
    match response.jsonBody with
    | none => serverErrorMessage response.status
    | some json =>
      let m := json.getField "message"
      let thrown :=
        if response.status == 422 && m.truthy then
          "Validation failed: " ++ m.jsToString
        else if m.truthy then m.jsToString
        else serverErrorMessage response.status
      if jsStartsWith thrown "Validation failed:"
          || jsStartsWith thrown "Server error:" then thrown
      else serverErrorMessage response.status
  else serverErrorMessage response.status

/-- The tail of `sendReceiptsToWarehouseMeals` after its `authenticatedFetch` resolved:
a 2xx response is parsed as JSON and returned; a non-2xx response is turned
into the classified error message. -/
def importResponseOutcome (response : HttpResponse) : Except String Value :=
  if response.ok then
    match response.jsonBody with
    | some json => .ok json
    | none => .error jsonParseErrorMessage
  else
    .error (importFailureMessage response)

/-- The function `sendReceiptsToWarehouseMeals` end to end:
`authenticatedFetch` on the import endpoint, then response handling.  The receipts list is serialized
into the request body, which the environment abstracts. -/
def sendReceiptsToWarehouseMeals (env : AuthEnv) (stored : Option String) :
    Except String Value × Option String × List AuthEvent :=
  match authenticatedFetch env stored with
  | (.error e, st, evs) => (.error e, st, evs)
  | (.ok response, st, evs) => (importResponseOutcome response, st, evs)

/-! ### Content-script channel (src/background.js lines 268–312) -/

/-- The channel bookkeeping of the background worker: `ports` is the
`contentPorts` map from tab id to a port handle; `pending` is the set of
unsettled `messageContentScript` futures (held in JS as listener closures),
keyed by their correlation id. -/
structure ChannelState where
  ports : List (Nat × Nat)
  pending : List (String × Nat)

/-- The `port.onDisconnect` handler: `contentPorts.delete(tabId)`.  Only the
port registry is touched; pending futures are not settled. -/
def handlePortDisconnect (st : ChannelState) (tabId : Nat) : ChannelState :=
  { ports := st.ports.filter (fun entry => entry.1 != tabId),
    pending := st.pending }

/-- JS `response.id !== id` where `id` is the call's correlation-id string:
strict equality holds exactly when `response.id` is that same string. -/
def idMatches (response : Value) (id : String) : Bool :=
  match response.getField "id" with
  | .str s => s == id
  | _ => false

/-- The `port.onMessage` listener registered by `messageContentScript` for
correlation id `id`, applied to one incoming message: `none` means the
listener returns without settling the future; otherwise the future rejects
with an error built from `response.error` when that field is truthy, and
resolves with `response.result` otherwise. -/
def portResponseListener (id : String) (response : Value) :
    Option (Except String Value) :=
  if idMatches response id then
    if (response.getField "error").truthy then
      some (.error (response.getField "error").jsToString)
    else
      some (.ok (response.getField "result"))
  else none

/-! ### `syncReceipts` (src/background.js lines 389–464) -/

inductive Phase where
  | listing
  | fetching
  | importing

/-- A progress snapshot as passed to `broadcastProgress`. -/
structure Progress where
  phase : Phase
  current : Option Nat
  total : Option Nat
  message : String

def listingProgress : Progress :=
  ⟨.listing, none, none, "Fetching receipt list from Costco..."⟩

def fetchingProgress (current total : Nat) : Progress :=
  ⟨.fetching, some current, some total,
   s!"Fetching receipt {current} of {total}..."⟩

def importingProgress : Progress :=
  ⟨.importing, none, none, "Sending receipts to WarehouseMeals..."⟩

/-- The mutable singleton `syncState`. -/
structure SyncState where
  inProgress : Bool
  progress : Option Progress

/-- Observable events of one `syncReceipts` run, in order: progress
broadcasts (`broadcastProgress`, with `none` for the final null signal), the
listing RPC, each detail RPC (with the barcode passed), the import
submission (with the filtered payload), and rate-limit delays. -/
inductive Event where
  | publish (snapshot : Option Progress)
  | listCall
  | detailCall (barcode : Value)
  | importCall (body : List Value)
  | wait (ms : Nat)

/-- Environment of one run: the outcome of the listing RPC (`none` for a
falsy result, `some` for an array), of each detail RPC keyed by the barcode
value passed, and of the import submission (the parsed JSON of a successful
response). -/
structure SyncEnv where
  listReceipts : Except String (Option (List Value))
  fetchDetails : Value → Except String Value
  sendImport : List Value → Except String Value

def emptyResultMessage : String := "No receipts found for this date range."

def alreadyInProgressMessage : String :=
  "A sync is already in progress. Please wait for it to finish."

def allFailedMessage (n : Nat) : String :=
  s!"Failed to fetch details for all {n} receipt(s). " ++
    "Costco may be experiencing issues. Please try again later."

/-- The value returned by a completed `syncReceipts` run: either the
zero-receipt short-circuit `{success, message, count}` or the detailed
result `{success, imported, duplicates, skipped, errors, fetchFailed}`. -/
inductive SyncResult where
  | noReceipts (success : Bool) (message : String) (count : Nat)
  | imported (success : Bool) (imported duplicates skipped errors : Value)
      (fetchFailed : Nat)

/-- JS `Array.isArray(result.errors) ? result.errors.length : (result.errors ?? 0)`. -/
def coerceErrors (v : Value) : Value :=
  match v with
  | .arr l => .num l.length
  | x => nullishOr x (.num 0)

/-- What one iteration of the step-2 loop appends to
`(detailedReceipts, failedReceipts)`: on a resolved truthy detail the detail
is pushed; on a falsy detail or a rejected RPC the barcode is pushed. -/
def fetchStep (env : SyncEnv) (barcode : Value) : List Value × List Value :=
  match env.fetchDetails barcode with
  | .ok d => if d.truthy then ([d], []) else ([], [barcode])
  | .error _ => ([], [barcode])

/-- The step-2 loop of `syncReceipts`: iterates the listed receipts in order
with index `i` (`total` is the full list's length), publishing progress
before each fetch, collecting successes and failed barcodes, and delaying
1s after every fetch but the last (`i < receipts.length - 1` holds exactly
when records remain).  Returns `(detailedReceipts, failedReceipts, events)`. -/
def fetchLoop (env : SyncEnv) (total : Nat) :
    Nat → List Value → List Value × List Value × List Event
  | _, [] => ([], [], [])
  | i, receipt :: rest =>
    ((fetchStep env (receipt.getField "transactionBarcode")).1
        ++ (fetchLoop env total (i + 1) rest).1,
     (fetchStep env (receipt.getField "transactionBarcode")).2
        ++ (fetchLoop env total (i + 1) rest).2.1,
     [.publish (some (fetchingProgress (i + 1) total)),
      .detailCall (receipt.getField "transactionBarcode")]
       ++ (if rest.length == 0 then [] else [.wait 1000])
       ++ (fetchLoop env total (i + 1) rest).2.2)

/-- The events of step 1 (already emitted when the listing call settles). -/
def listingEvents : List Event := [.publish (some listingProgress), .listCall]

/-- The `{success: true, message: ..., count: 0}` short-circuit value. -/
def emptySyncResult : SyncResult := .noReceipts true emptyResultMessage 0

/-- Steps 2½–3 of `syncReceipts`, applied to the loop's
`(detailedReceipts, failedReceipts, loop events)`: the all-fetches-failed
abort, then filtering and the import submission, building the detailed
result with the API response's counts (`?? `-defaulted as in the source). -/
def syncImportStep (env : SyncEnv)
    (loopOut : List Value × List Value × List Event) :
    Except String SyncResult × List Event :=
  if loopOut.1.length == 0 && decide (0 < loopOut.2.1.length) then
    (.error (allFailedMessage loopOut.2.1.length), listingEvents ++ loopOut.2.2)
  else
    match env.sendImport (loopOut.1.map filterReceiptData) with
    | .error e =>
        (.error e,
         listingEvents ++ loopOut.2.2
           ++ [.publish (some importingProgress),
               .importCall (loopOut.1.map filterReceiptData)])
    | .ok json =>
        (.ok (.imported true
            (nullishOr (json.getField "imported") (.num loopOut.1.length))
            (nullishOr (json.getField "duplicates") (.num 0))
            (nullishOr (json.getField "skipped") (.num 0))
            (coerceErrors (json.getField "errors"))
            loopOut.2.1.length),
         listingEvents ++ loopOut.2.2
           ++ [.publish (some importingProgress),
               .importCall (loopOut.1.map filterReceiptData)])

/-- The `try` body of `syncReceipts`: listing, the zero-receipt
short-circuit, per-receipt fetching, filter and import.  Returns the result
(or thrown error message) and the events of the body. -/
def syncBody (env : SyncEnv) : Except String SyncResult × List Event :=
  match env.listReceipts with
  | .error e => (.error e, listingEvents)
  | .ok none => (.ok emptySyncResult, listingEvents)
  | .ok (some receipts) =>
    if receipts.length == 0 then (.ok emptySyncResult, listingEvents)
    else syncImportStep env (fetchLoop env receipts.length 0 receipts)

/-- The function `syncReceipts`: the single-flight guard, the body, and the `finally`
block, which unconditionally clears `inProgress` and `progress` and then
broadcasts a final null progress signal.  Returns the result, the final
`syncState`, and the event trace. -/
def syncReceipts (env : SyncEnv) (s : SyncState) :
    Except String SyncResult × SyncState × List Event :=
  if s.inProgress then
    (.error alreadyInProgressMessage, s, [])
  else
    let bodyOut := syncBody env
    (bodyOut.1, ⟨false, none⟩, bodyOut.2 ++ [.publish none])

/-- The import bodies among a run's events. -/
def importBodyOf : Event → Option (List Value)
  | .importCall body => some body
  | _ => none

/-- Whether a detail fetch for this receipt succeeds: the RPC resolves and
its result is truthy. -/
def fetchSucceeds (env : SyncEnv) (receipt : Value) : Bool :=
  match env.fetchDetails (receipt.getField "transactionBarcode") with
  | .ok d => d.truthy
  | .error _ => false

/-- The details collected by the fetch loop, in listing order. -/
def successfulDetails (env : SyncEnv) (receipts : List Value) : List Value :=
  receipts.filterMap fun r =>
    match env.fetchDetails (r.getField "transactionBarcode") with
    | .ok d => if d.truthy then some d else none
    | .error _ => none

/-- The barcodes of the receipts whose detail fetch fails, in listing
order. -/
def failedBarcodes (env : SyncEnv) (receipts : List Value) : List Value :=
  (receipts.filter fun r => !fetchSucceeds env r).map
    fun r => r.getField "transactionBarcode"

/-! ### Structural lemmas about the fetch loop and the sync body -/

theorem fetchLoop_cons (env : SyncEnv) (total i : Nat) (r : Value)
    (rest : List Value) :
    fetchLoop env total i (r :: rest)
      = ((fetchStep env (r.getField "transactionBarcode")).1
           ++ (fetchLoop env total (i + 1) rest).1,
         (fetchStep env (r.getField "transactionBarcode")).2
           ++ (fetchLoop env total (i + 1) rest).2.1,
         [.publish (some (fetchingProgress (i + 1) total)),
          .detailCall (r.getField "transactionBarcode")]
           ++ (if rest.length == 0 then [] else [.wait 1000])
           ++ (fetchLoop env total (i + 1) rest).2.2) := rfl

theorem fetchLoop_detailed (env : SyncEnv) (total : Nat) :
    ∀ (i : Nat) (rs : List Value),
      (fetchLoop env total i rs).1 = successfulDetails env rs := by
  intro i rs
  induction rs generalizing i with
  | nil => rfl
  | cons r rest ih =>
    show (fetchStep env (r.getField "transactionBarcode")).1
        ++ (fetchLoop env total (i + 1) rest).1
      = successfulDetails env (r :: rest)
    rw [ih (i + 1)]
    unfold successfulDetails fetchStep
    rw [List.filterMap_cons]
    cases env.fetchDetails (r.getField "transactionBarcode") with
    | ok d => cases hd : d.truthy <;> simp [hd]
    | error e => simp

theorem fetchLoop_failed (env : SyncEnv) (total : Nat) :
    ∀ (i : Nat) (rs : List Value),
      (fetchLoop env total i rs).2.1 = failedBarcodes env rs := by
  intro i rs
  induction rs generalizing i with
  | nil => rfl
  | cons r rest ih =>
    show (fetchStep env (r.getField "transactionBarcode")).2
        ++ (fetchLoop env total (i + 1) rest).2.1
      = failedBarcodes env (r :: rest)
    rw [ih (i + 1)]
    unfold failedBarcodes fetchStep fetchSucceeds
    rw [List.filter_cons]
    cases env.fetchDetails (r.getField "transactionBarcode") with
    | ok d => cases hd : d.truthy <;> simp [hd]
    | error e => simp

theorem fetchLoop_events_shape (env : SyncEnv) (total : Nat) :
    ∀ (i : Nat) (rs : List Value) (e : Event),
      e ∈ (fetchLoop env total i rs).2.2 →
        (∃ c t, e = .publish (some (fetchingProgress c t))) ∨
        (∃ b, e = .detailCall b) ∨ e = .wait 1000 := by
  intro i rs
  induction rs generalizing i with
  | nil => intro e he; simp [fetchLoop] at he
  | cons r rest ih =>
    intro e he
    have he' : e ∈ ([Event.publish (some (fetchingProgress (i + 1) total)),
        Event.detailCall (r.getField "transactionBarcode")] : List Event)
          ++ (if rest.length == 0 then [] else [Event.wait 1000])
          ++ (fetchLoop env total (i + 1) rest).2.2 := he
    rw [List.mem_append, List.mem_append] at he'
    rcases he' with (hh | hw) | ht
    · rcases List.mem_cons.mp hh with h | h
      · exact Or.inl ⟨i + 1, total, h⟩
      · rcases List.mem_cons.mp h with h2 | h2
        · exact Or.inr (Or.inl ⟨_, h2⟩)
        · simp at h2
    · refine Or.inr (Or.inr ?_)
      revert hw; split <;> simp
    · exact ih (i + 1) e ht

theorem fetchLoop_no_import (env : SyncEnv) (total i : Nat) (rs : List Value)
    (body : List Value) :
    Event.importCall body ∉ (fetchLoop env total i rs).2.2 := by
  intro hmem
  rcases fetchLoop_events_shape env total i rs _ hmem with ⟨c, t, h⟩ | ⟨b, h⟩ | h <;>
    simp at h

theorem fetchLoop_no_null_publish (env : SyncEnv) (total i : Nat)
    (rs : List Value) :
    Event.publish none ∉ (fetchLoop env total i rs).2.2 := by
  intro hmem
  rcases fetchLoop_events_shape env total i rs _ hmem with ⟨c, t, h⟩ | ⟨b, h⟩ | h <;>
    simp at h

theorem syncImportStep_no_null_publish (env : SyncEnv)
    (loopOut : List Value × List Value × List Event)
    (hevs : Event.publish none ∉ loopOut.2.2) :
    Event.publish none ∉ (syncImportStep env loopOut).2 := by
  unfold syncImportStep
  split
  · simp [listingEvents, hevs]
  · cases env.sendImport (loopOut.1.map filterReceiptData) <;>
      simp [listingEvents, hevs]

theorem syncImportStep_no_detail (env : SyncEnv)
    (loopOut : List Value × List Value × List Event) (b : Value)
    (hevs : Event.detailCall b ∉ loopOut.2.2) :
    Event.detailCall b ∉ (syncImportStep env loopOut).2 := by
  unfold syncImportStep
  split
  · simp [listingEvents, hevs]
  · cases env.sendImport (loopOut.1.map filterReceiptData) <;>
      simp [listingEvents, hevs]

theorem syncImportStep_import_inv (env : SyncEnv)
    (loopOut : List Value × List Value × List Event) (body : List Value)
    (hevs : Event.importCall body ∉ loopOut.2.2)
    (h : Event.importCall body ∈ (syncImportStep env loopOut).2) :
    body = loopOut.1.map filterReceiptData := by
  unfold syncImportStep at h
  split at h
  · rw [List.mem_append] at h
    rcases h with h | h
    · simp [listingEvents] at h
    · exact absurd h hevs
  · cases hs : env.sendImport (loopOut.1.map filterReceiptData) <;>
      rw [hs] at h <;>
    · rw [List.mem_append, List.mem_append] at h
      rcases h with (h | h) | h
      · simp [listingEvents] at h
      · exact absurd h hevs
      · rcases List.mem_cons.mp h with h2 | h2
        · simp at h2
        · rcases List.mem_cons.mp h2 with h3 | h3
          · exact Event.importCall.inj h3
          · simp at h3

theorem syncImportStep_abort (env : SyncEnv)
    (loopOut : List Value × List Value × List Event)
    (h1 : loopOut.1.length = 0) (h2 : 0 < loopOut.2.1.length) :
    syncImportStep env loopOut
      = (.error (allFailedMessage loopOut.2.1.length),
         listingEvents ++ loopOut.2.2) := by
  unfold syncImportStep
  rw [if_pos (by simp [h1, h2])]

theorem syncImportStep_done (env : SyncEnv)
    (loopOut : List Value × List Value × List Event) (json : Value)
    (hne : loopOut.1.length ≠ 0)
    (hs : env.sendImport (loopOut.1.map filterReceiptData) = .ok json) :
    syncImportStep env loopOut
      = (.ok (.imported true
          (nullishOr (json.getField "imported") (.num loopOut.1.length))
          (nullishOr (json.getField "duplicates") (.num 0))
          (nullishOr (json.getField "skipped") (.num 0))
          (coerceErrors (json.getField "errors"))
          loopOut.2.1.length),
         listingEvents ++ loopOut.2.2
           ++ [.publish (some importingProgress),
               .importCall (loopOut.1.map filterReceiptData)]) := by
  unfold syncImportStep
  rw [if_neg (by simp [hne]), hs]

theorem syncBody_listing_error (env : SyncEnv) (e : String)
    (hl : env.listReceipts = .error e) :
    syncBody env = (.error e, listingEvents) := by
  unfold syncBody; rw [hl]

theorem syncBody_listing_nullish (env : SyncEnv)
    (hl : env.listReceipts = .ok none) :
    syncBody env = (.ok emptySyncResult, listingEvents) := by
  unfold syncBody; rw [hl]

theorem syncBody_listing_some (env : SyncEnv) (receipts : List Value)
    (hl : env.listReceipts = .ok (some receipts)) :
    syncBody env
      = if receipts.length == 0 then (.ok emptySyncResult, listingEvents)
        else syncImportStep env (fetchLoop env receipts.length 0 receipts) := by
  unfold syncBody; rw [hl]

theorem syncBody_no_null_publish (env : SyncEnv) :
    Event.publish none ∉ (syncBody env).2 := by
  cases hl : env.listReceipts with
  | error e => rw [syncBody_listing_error env e hl]; simp [listingEvents]
  | ok o =>
    cases o with
    | none => rw [syncBody_listing_nullish env hl]; simp [listingEvents]
    | some receipts =>
      rw [syncBody_listing_some env receipts hl]
      split
      · simp [listingEvents]
      · exact syncImportStep_no_null_publish env _
          (fetchLoop_no_null_publish env receipts.length 0 receipts)

theorem syncBody_import_inv (env : SyncEnv) (body : List Value)
    (h : Event.importCall body ∈ (syncBody env).2) :
    ∃ rs, env.listReceipts = .ok (some rs) ∧
      body = (successfulDetails env rs).map filterReceiptData := by
  cases hl : env.listReceipts with
  | error e => rw [syncBody_listing_error env e hl] at h; simp [listingEvents] at h
  | ok o =>
    cases o with
    | none => rw [syncBody_listing_nullish env hl] at h; simp [listingEvents] at h
    | some receipts =>
      rw [syncBody_listing_some env receipts hl] at h
      refine ⟨receipts, rfl, ?_⟩
      split at h
      · simp [listingEvents] at h
      · have := syncImportStep_import_inv env
          (fetchLoop env receipts.length 0 receipts) body
          (fetchLoop_no_import env receipts.length 0 receipts body) h
        rw [this, fetchLoop_detailed]

/-! ### Claim theorems about `syncReceipts` -/

/-- C1: a call to `syncReceipts` made while `syncState.inProgress` is true
fails with the `AlreadyInProgress` error, modifies no state (`inProgress`
stays true and the running sync's progress snapshot is unchanged), and
publishes no progress message; `inProgress` can thus go from false to true
only when it was false. -/
theorem syncReceipts_single_flight_guard (env : SyncEnv) (s : SyncState)
    (h : s.inProgress = true) :
    syncReceipts env s = (.error alreadyInProgressMessage, s, []) := by
  unfold syncReceipts
  rw [h]
  simp

/-- C2: every execution of `syncReceipts` that passes the single-flight
guard ends — on every exit path, normal, partial-failure or thrown — with
`inProgress = false` and `progress = none`, and its event trace is a run
containing no null progress publication followed by exactly one final null
progress publication. -/
theorem syncReceipts_cleanup_on_every_path (env : SyncEnv) (s : SyncState)
    (h : s.inProgress = false) :
    (syncReceipts env s).2.1 = ⟨false, none⟩ ∧
    ∃ bodyEvents, (syncReceipts env s).2.2 = bodyEvents ++ [.publish none] ∧
      Event.publish none ∉ bodyEvents := by
  refine ⟨?_, (syncBody env).2, ?_, syncBody_no_null_publish env⟩ <;>
    · unfold syncReceipts
      rw [h]
      simp

/-- C7: when the listing call yields a nullish or empty record list,
`syncReceipts` returns the `{success: true, ..., count: 0}` result and
makes neither a detail-fetch call nor an import call. -/
theorem syncReceipts_empty_listing (env : SyncEnv) (s : SyncState)
    (h : s.inProgress = false)
    (hlist : env.listReceipts = .ok none ∨ env.listReceipts = .ok (some [])) :
    (syncReceipts env s).1 = .ok (.noReceipts true emptyResultMessage 0) ∧
    (∀ b, Event.detailCall b ∉ (syncReceipts env s).2.2) ∧
    (∀ body, Event.importCall body ∉ (syncReceipts env s).2.2) := by
  have hbody : syncBody env = (.ok emptySyncResult, listingEvents) := by
    rcases hlist with h1 | h1
    · exact syncBody_listing_nullish env h1
    · rw [syncBody_listing_some env [] h1]; simp
  unfold syncReceipts
  rw [h]
  simp [hbody, emptySyncResult, listingEvents]

/-- C6: when every detail fetch fails (no successful detail, at least one
failure), `syncReceipts` throws the fatal aggregate error naming the
failure count and the import submission is never invoked. -/
theorem syncReceipts_all_fetches_failed (env : SyncEnv) (s : SyncState)
    (rs : List Value)
    (h : s.inProgress = false)
    (hlist : env.listReceipts = .ok (some rs))
    (hnone : successfulDetails env rs = [])
    (hfail : failedBarcodes env rs ≠ []) :
    (syncReceipts env s).1
        = .error (allFailedMessage (failedBarcodes env rs).length) ∧
    ∀ body, Event.importCall body ∉ (syncReceipts env s).2.2 := by
  have hrs : rs ≠ [] := by
    intro hemp
    rw [hemp] at hfail
    exact hfail rfl
  have hbody : syncBody env
      = (.error (allFailedMessage (failedBarcodes env rs).length),
         listingEvents ++ (fetchLoop env rs.length 0 rs).2.2) := by
    rw [syncBody_listing_some env rs hlist,
      if_neg (by simp [List.length_eq_zero, hrs]),
      syncImportStep_abort env _ (by rw [fetchLoop_detailed, hnone]; rfl)
        (by rw [fetchLoop_failed]; simpa [List.length_pos] using hfail),
      fetchLoop_failed]
  unfold syncReceipts
  rw [h]
  refine ⟨by simp [hbody], ?_⟩
  intro body hmem
  simp only [Bool.false_eq_true, if_false, hbody] at hmem
  rw [List.mem_append] at hmem
  rcases hmem with hmem | hmem
  · rw [List.mem_append] at hmem
    rcases hmem with hmem | hmem
    · simp [listingEvents] at hmem
    · exact fetchLoop_no_import env rs.length 0 rs body hmem
  · simp at hmem

/-- C5: when some detail fetches succeed and some fail and the import call
succeeds, exactly one import submission is made, its body is exactly the
successful details after allow-list filtering in listing order, the failed
records' barcodes are collected instead of aborting the run, and the
returned result's `fetchFailed` equals the number of failed records. -/
theorem syncReceipts_mixed_fetch_results (env : SyncEnv) (s : SyncState)
    (rs : List Value) (resp : Value)
    (h : s.inProgress = false)
    (hlist : env.listReceipts = .ok (some rs))
    (hsome : successfulDetails env rs ≠ [])
    (hfail : failedBarcodes env rs ≠ [])
    (himp : env.sendImport ((successfulDetails env rs).map filterReceiptData)
        = .ok resp) :
    ((syncReceipts env s).2.2.filterMap importBodyOf)
        = [(successfulDetails env rs).map filterReceiptData] ∧
    ∃ i d k e, (syncReceipts env s).1
        = .ok (.imported true i d k e (failedBarcodes env rs).length) := by
  have hrs : rs ≠ [] := by
    intro hemp
    rw [hemp] at hsome
    exact hsome rfl
  have hbody : syncBody env
      = (.ok (.imported true
          (nullishOr (resp.getField "imported")
            (.num (successfulDetails env rs).length))
          (nullishOr (resp.getField "duplicates") (.num 0))
          (nullishOr (resp.getField "skipped") (.num 0))
          (coerceErrors (resp.getField "errors"))
          (failedBarcodes env rs).length),
         listingEvents ++ (fetchLoop env rs.length 0 rs).2.2
           ++ [.publish (some importingProgress),
               .importCall ((successfulDetails env rs).map filterReceiptData)]) := by
    rw [syncBody_listing_some env rs hlist,
      if_neg (by simp [List.length_eq_zero, hrs]),
      syncImportStep_done env _ resp
        (by rw [fetchLoop_detailed]; simpa [List.length_eq_zero] using hsome)
        (by rw [fetchLoop_detailed]; exact himp)]
    rw [fetchLoop_detailed, fetchLoop_failed]
  constructor
  · unfold syncReceipts
    rw [h]
    simp only [Bool.false_eq_true, if_false, hbody]
    rw [List.filterMap_append, List.filterMap_append, List.filterMap_append]
    rw [show (listingEvents.filterMap importBodyOf) = [] from rfl]
    rw [List.filterMap_eq_nil_iff.mpr
      (fun e he => by
        rcases fetchLoop_events_shape env rs.length 0 rs e he
          with ⟨c, t, h'⟩ | ⟨b, h'⟩ | h' <;> rw [h'] <;> rfl)]
    rfl
  · refine ⟨nullishOr (resp.getField "imported")
        (.num (successfulDetails env rs).length),
      nullishOr (resp.getField "duplicates") (.num 0),
      nullishOr (resp.getField "skipped") (.num 0),
      coerceErrors (resp.getField "errors"), ?_⟩
    unfold syncReceipts
    rw [h]
    simp [hbody]

/-- C10: when a run reaches a successful import submission, the final
result defaults each count the response omits: `imported` falls back to the
number of successfully fetched details, `duplicates` and `skipped` to 0,
and `errors` to 0, with a list-valued `errors` coerced to its length. -/
theorem syncReceipts_result_defaults (env : SyncEnv) (s : SyncState)
    (rs : List Value) (resp : Value)
    (h : s.inProgress = false)
    (hlist : env.listReceipts = .ok (some rs))
    (hsome : successfulDetails env rs ≠ [])
    (himp : env.sendImport ((successfulDetails env rs).map filterReceiptData)
        = .ok resp) :
    ∃ i d k e,
      (syncReceipts env s).1
          = .ok (.imported true i d k e (failedBarcodes env rs).length) ∧
      ((resp.getField "imported").isNullish = true →
        i = .num (successfulDetails env rs).length) ∧
      ((resp.getField "duplicates").isNullish = true → d = .num 0) ∧
      ((resp.getField "skipped").isNullish = true → k = .num 0) ∧
      ((resp.getField "errors").isNullish = true → e = .num 0) ∧
      (∀ l, resp.getField "errors" = .arr l → e = .num l.length) := by
  have hrs : rs ≠ [] := by
    intro hemp
    rw [hemp] at hsome
    exact hsome rfl
  have hbody : syncBody env
      = (.ok (.imported true
          (nullishOr (resp.getField "imported")
            (.num (successfulDetails env rs).length))
          (nullishOr (resp.getField "duplicates") (.num 0))
          (nullishOr (resp.getField "skipped") (.num 0))
          (coerceErrors (resp.getField "errors"))
          (failedBarcodes env rs).length),
         listingEvents ++ (fetchLoop env rs.length 0 rs).2.2
           ++ [.publish (some importingProgress),
               .importCall ((successfulDetails env rs).map filterReceiptData)]) := by
    rw [syncBody_listing_some env rs hlist,
      if_neg (by simp [List.length_eq_zero, hrs]),
      syncImportStep_done env _ resp
        (by rw [fetchLoop_detailed]; simpa [List.length_eq_zero] using hsome)
        (by rw [fetchLoop_detailed]; exact himp)]
    rw [fetchLoop_detailed, fetchLoop_failed]
  refine ⟨nullishOr (resp.getField "imported")
      (.num (successfulDetails env rs).length),
    nullishOr (resp.getField "duplicates") (.num 0),
    nullishOr (resp.getField "skipped") (.num 0),
    coerceErrors (resp.getField "errors"), ?_, ?_, ?_, ?_, ?_, ?_⟩
  · unfold syncReceipts
    rw [h]
    simp [hbody]
  · intro hn; simp [nullishOr, hn]
  · intro hn; simp [nullishOr, hn]
  · intro hn; simp [nullishOr, hn]
  · intro hn
    cases hv : resp.getField "errors" <;> rw [hv] at hn <;>
      simp [coerceErrors, nullishOr, Value.isNullish] at hn ⊢
  · intro l hv
    rw [hv]
    rfl

theorem syncReceipts_events_of_idle (env : SyncEnv) (s : SyncState)
    (h : s.inProgress = false) :
    (syncReceipts env s).2.2 = (syncBody env).2 ++ [.publish none] := by
  unfold syncReceipts
  rw [h]
  simp

/-- C4: every receipt in any payload submitted to the import endpoint by a
`syncReceipts` run carries exactly the documented allow-list fields, and
each of its line items carries exactly the item allow-list fields — no
undocumented field (e.g. `internalNotes`) ever crosses the submission
boundary. -/
theorem submitted_payload_allow_listed (env : SyncEnv) (s : SyncState)
    (body : List Value) (r : Value)
    (hb : Event.importCall body ∈ (syncReceipts env s).2.2)
    (hr : r ∈ body) :
    objKeys r = receiptAllowList ∧
    ∀ itemsList, r.getField "itemArray" = .arr itemsList →
      ∀ it ∈ itemsList, objKeys it = itemAllowList := by
  have hb' : Event.importCall body ∈ (syncBody env).2 := by
    cases hp : s.inProgress with
    | true =>
      unfold syncReceipts at hb
      rw [hp] at hb
      simp at hb
    | false =>
      rw [syncReceipts_events_of_idle env s hp, List.mem_append] at hb
      rcases hb with hb | hb
      · exact hb
      · simp at hb
  obtain ⟨rs, hlist, hbody⟩ := syncBody_import_inv env body hb'
  subst hbody
  rw [List.mem_map] at hr
  obtain ⟨d, hd, rfl⟩ := hr
  refine ⟨filterReceiptData_keys d, ?_⟩
  intro itemsList hitems it hit
  rw [filterReceiptData_items] at hitems
  have hil : itemsList = (itemArrayOf d).map filterItemData :=
    (Value.arr.inj hitems).symm
  subst hil
  rw [List.mem_map] at hit
  obtain ⟨x, hx, rfl⟩ := hit
  exact filterItemData_keys x

/-! ### Claim theorems about `authenticatedFetch` and the import response -/

/-- C3: with a credential stored, a first 401 triggers exactly one retry of
the same request with the same credential after a fixed 1-second delay; a
second consecutive 401 clears the credential and fails with
`SessionExpired`; a non-401 retry response is returned with the credential
kept; a transport-level failure fails with `NetworkError` and leaves the
credential unchanged; the credential is cleared in no other case. -/
theorem authenticatedFetch_retry_policy (env : AuthEnv) (token : String) :
    (env.attempt 0 = .transportFailure →
      authenticatedFetch env (some token)
        = (.error networkErrorMessage, some token, [.fetchAttempt token])) ∧
    (∀ r, env.attempt 0 = .success r → r.status ≠ 401 →
      authenticatedFetch env (some token)
        = (.ok r, some token, [.fetchAttempt token])) ∧
    (∀ r, env.attempt 0 = .success r → r.status = 401 →
        env.attempt 1 = .transportFailure →
      authenticatedFetch env (some token)
        = (.error networkErrorMessage, some token,
           [.fetchAttempt token, .wait 1000, .fetchAttempt token])) ∧
    (∀ r r₂, env.attempt 0 = .success r → r.status = 401 →
        env.attempt 1 = .success r₂ → r₂.status ≠ 401 →
      authenticatedFetch env (some token)
        = (.ok r₂, some token,
           [.fetchAttempt token, .wait 1000, .fetchAttempt token])) ∧
    (∀ r r₂, env.attempt 0 = .success r → r.status = 401 →
        env.attempt 1 = .success r₂ → r₂.status = 401 →
      authenticatedFetch env (some token)
        = (.error sessionExpiredMessage, none,
           [.fetchAttempt token, .wait 1000, .fetchAttempt token,
            .tokenCleared])) := by
  refine ⟨?_, ?_, ?_, ?_, ?_⟩
  · intro h0
    unfold authenticatedFetch
    rw [h0]
  · intro r h0 hs
    unfold authenticatedFetch
    rw [h0]
    simp [hs]
  · intro r h0 hs h1
    unfold authenticatedFetch
    rw [h0]
    simp [hs, h1]
  · intro r r₂ h0 hs h1 hs₂
    unfold authenticatedFetch
    rw [h0]
    simp [hs, h1, hs₂]
  · intro r r₂ h0 hs h1 hs₂
    unfold authenticatedFetch
    rw [h0]
    simp [hs, h1, hs₂]

theorem charsStartWith_append (p rest : List Char) :
    charsStartWith (p ++ rest) p = true := by
  unfold charsStartWith
  rw [List.take_append_eq_append_take, List.take_length, Nat.sub_self,
    List.take_zero, List.append_nil]
  exact beq_self_eq_true p

/-- The concrete non-2xx response refuting C8 as stated: a 500 whose JSON
body's `message` itself begins with `Validation failed:`. -/
def cexImportResponse : HttpResponse :=
  ⟨false, 500, some "application/json",
   some (.obj [("message", .str "Validation failed: boom")])⟩

/-- C8 counterexample: on a non-422 (status 500) JSON response whose
`message` begins with `Validation failed:`, the call fails with that
verbatim `ValidationError`-shaped message and not with `Server error: 500`,
so "`ServerError(status)` in every other case" is false as stated. -/
theorem importFailureMessage_counterexample :
    cexImportResponse.ok = false ∧
    cexImportResponse.status ≠ 422 ∧
    importResponseOutcome cexImportResponse
      = .error "Validation failed: boom" ∧
    "Validation failed: boom"
      ≠ serverErrorMessage cexImportResponse.status := by
  refine ⟨rfl, by decide, rfl, by decide⟩

/-- C8 amended: for every non-2xx import response, the failure message is
`Validation failed: <message>` when the body is JSON carrying a truthy
`message` under status 422, and `Server error: <status>` in every other
case — except that a non-422 JSON body whose stringified truthy `message`
itself begins with `Validation failed:` or `Server error:` is surfaced
verbatim. -/
theorem importFailure_classification (env : AuthEnv) (stored : Option String)
    (response : HttpResponse) (st : Option String) (evs : List AuthEvent)
    (hfetch : authenticatedFetch env stored = (.ok response, st, evs))
    (hok : response.ok = false) :
    (sendReceiptsToWarehouseMeals env stored).1
        = .error (importFailureMessage response) ∧
    (contentTypeIsJson response = false →
      importFailureMessage response = serverErrorMessage response.status) ∧
    (response.jsonBody = none →
      importFailureMessage response = serverErrorMessage response.status) ∧
    (∀ json, response.jsonBody = some json →
        (json.getField "message").truthy = false →
      importFailureMessage response = serverErrorMessage response.status) ∧
    (∀ json, contentTypeIsJson response = true →
        response.jsonBody = some json → response.status = 422 →
        (json.getField "message").truthy = true →
      importFailureMessage response
        = "Validation failed: " ++ (json.getField "message").jsToString) ∧
    (∀ json, contentTypeIsJson response = true →
        response.jsonBody = some json → response.status ≠ 422 →
        (json.getField "message").truthy = true →
      importFailureMessage response
        = if jsStartsWith (json.getField "message").jsToString
                "Validation failed:"
              || jsStartsWith (json.getField "message").jsToString
                "Server error:"
          then (json.getField "message").jsToString
          else serverErrorMessage response.status) := by
  refine ⟨?_, ?_, ?_, ?_, ?_, ?_⟩
  · unfold sendReceiptsToWarehouseMeals
    rw [hfetch]
    simp [importResponseOutcome, hok]
  · intro hct
    unfold importFailureMessage
    rw [hct]
    simp
  · intro hj
    unfold importFailureMessage
    cases hct : contentTypeIsJson response
    · simp
    · rw [hj]
      simp
  · intro json hj hm
    unfold importFailureMessage
    cases hct : contentTypeIsJson response
    · simp
    · rw [hj]
      simp only [hm, Bool.and_false, Bool.false_eq_true, if_false, ite_self]
  · intro json hct hj h422 hm
    unfold importFailureMessage
    rw [hct, hj, h422]
    simp only [hm, if_true, Bool.and_true, beq_self_eq_true]
    rw [if_pos]
    rw [Bool.or_eq_true]
    left
    have hdecomp : ("Validation failed: " ++ (json.getField "message").jsToString).toList
        = "Validation failed:".toList
            ++ (' ' :: (json.getField "message").jsToString.toList) := by
      rw [show ("Validation failed: " ++ (json.getField "message").jsToString).toList
          = "Validation failed: ".toList
              ++ (json.getField "message").jsToString.toList from by
        simp [String.toList]]
      rfl
    unfold jsStartsWith
    rw [hdecomp]
    exact charsStartWith_append _ _
  · intro json hct hj h422 hm
    unfold importFailureMessage
    rw [hct, hj]
    have hb : (response.status == 422) = false := by
      simp [h422]
    simp only [hb, Bool.false_and, Bool.false_eq_true, if_false, hm, if_true]

/-! ### Claim theorem about the content-script channel -/

/-- C9: the pending future of a `messageContentScript` call settles only on
a port message whose id equals the call's correlation id — resolving with
the message's `result` field when its `error` field is falsy and rejecting
with an error built from `error` when it is truthy — and a port disconnect
removes that tab's registry entry without settling any pending future. -/
theorem channel_correlation_and_disconnect :
    (∀ id response, idMatches response id = false →
      portResponseListener id response = none) ∧
    (∀ id response, idMatches response id = true →
        (response.getField "error").truthy = true →
      portResponseListener id response
        = some (.error (response.getField "error").jsToString)) ∧
    (∀ id response, idMatches response id = true →
        (response.getField "error").truthy = false →
      portResponseListener id response
        = some (.ok (response.getField "result"))) ∧
    (∀ st tabId, (handlePortDisconnect st tabId).pending = st.pending) ∧
    (∀ st tabId, (handlePortDisconnect st tabId).ports
      = st.ports.filter (fun entry => entry.1 != tabId)) := by
  refine ⟨?_, ?_, ?_, fun st tabId => rfl, fun st tabId => rfl⟩
  · intro id response h
    simp [portResponseListener, h]
  · intro id response h he
    simp [portResponseListener, h, he]
  · intro id response h he
    simp [portResponseListener, h, he]

/-! ### Concrete instantiations -/

/-- An idle `syncState`. -/
def wIdleState : SyncState := ⟨false, none⟩

/-- A `syncState` mid-run. -/
def wBusyState : SyncState := ⟨true, some listingProgress⟩

/-- An environment whose listing resolves to a nullish result. -/
def trivialSyncEnv : SyncEnv :=
  ⟨.ok none, fun _ => .error "no detail", fun _ => .error "no import"⟩

def wReceiptA : Value := .obj [("transactionBarcode", .str "A")]
def wReceiptB : Value := .obj [("transactionBarcode", .str "B")]
def wReceiptC : Value := .obj [("transactionBarcode", .str "C")]
def wReceipts : List Value := [wReceiptA, wReceiptB, wReceiptC]

/-- A raw detail carrying undocumented fields at both levels. -/
def wDetailA : Value :=
  .obj [("transactionBarcode", .str "A"),
        ("transactionDateTime", .str "2024-01-01T10:00"),
        ("total", .num 42),
        ("internalNotes", .str "undocumented"),
        ("itemArray", .arr [.obj [("itemNumber", .num 1),
                                  ("internalFlag", .bool true)]])]

def wDetailC : Value :=
  .obj [("transactionBarcode", .str "C"), ("itemArray", .arr [])]

/-- An import response that omits every count and reports `errors` as a
list. -/
def wImportResp : Value := .obj [("errors", .arr [.str "bad row"])]

/-- Three listed receipts of which A and C fetch successfully and B's RPC
rejects. -/
def wSyncEnv : SyncEnv :=
  ⟨.ok (some wReceipts),
   fun b =>
     match b with
     | .str "A" => .ok wDetailA
     | .str "B" => .error "rpc failure"
     | .str "C" => .ok wDetailC
     | _ => .error "unknown barcode",
   fun _ => .ok wImportResp⟩

/-- Two listed receipts, every detail fetch rejecting. -/
def wAllFailEnv : SyncEnv :=
  ⟨.ok (some [wReceiptA, wReceiptB]),
   fun _ => .error "rpc failure",
   fun _ => .error "unreached"⟩

/-- The payload `wSyncEnv` submits. -/
def wBody : List Value :=
  (successfulDetails wSyncEnv wReceipts).map filterReceiptData

theorem syncReceipts_single_flight_guard_witness :
    syncReceipts trivialSyncEnv wBusyState
      = (.error alreadyInProgressMessage, wBusyState, []) :=
  syncReceipts_single_flight_guard trivialSyncEnv wBusyState rfl

theorem syncReceipts_cleanup_on_every_path_witness :
    (syncReceipts wSyncEnv wIdleState).2.1 = ⟨false, none⟩ ∧
    ∃ bodyEvents, (syncReceipts wSyncEnv wIdleState).2.2
        = bodyEvents ++ [.publish none] ∧
      Event.publish none ∉ bodyEvents :=
  syncReceipts_cleanup_on_every_path wSyncEnv wIdleState rfl

theorem syncReceipts_empty_listing_witness :
    (syncReceipts trivialSyncEnv wIdleState).1
        = .ok (.noReceipts true emptyResultMessage 0) ∧
    (∀ b, Event.detailCall b ∉ (syncReceipts trivialSyncEnv wIdleState).2.2) ∧
    (∀ body,
      Event.importCall body ∉ (syncReceipts trivialSyncEnv wIdleState).2.2) :=
  syncReceipts_empty_listing trivialSyncEnv wIdleState rfl (Or.inl rfl)

theorem syncReceipts_all_fetches_failed_witness :
    (syncReceipts wAllFailEnv wIdleState).1
        = .error (allFailedMessage
            (failedBarcodes wAllFailEnv [wReceiptA, wReceiptB]).length) ∧
    ∀ body, Event.importCall body ∉ (syncReceipts wAllFailEnv wIdleState).2.2 :=
  syncReceipts_all_fetches_failed wAllFailEnv wIdleState [wReceiptA, wReceiptB]
    rfl rfl rfl
    (by rw [show failedBarcodes wAllFailEnv [wReceiptA, wReceiptB]
          = [.str "A", .str "B"] from rfl]
        exact List.cons_ne_nil _ _)

theorem syncReceipts_mixed_fetch_results_witness :
    ((syncReceipts wSyncEnv wIdleState).2.2.filterMap importBodyOf)
        = [(successfulDetails wSyncEnv wReceipts).map filterReceiptData] ∧
    ∃ i d k e, (syncReceipts wSyncEnv wIdleState).1
        = .ok (.imported true i d k e
            (failedBarcodes wSyncEnv wReceipts).length) :=
  syncReceipts_mixed_fetch_results wSyncEnv wIdleState wReceipts wImportResp
    rfl rfl
    (by rw [show successfulDetails wSyncEnv wReceipts
          = [wDetailA, wDetailC] from rfl]
        exact List.cons_ne_nil _ _)
    (by rw [show failedBarcodes wSyncEnv wReceipts = [.str "B"] from rfl]
        exact List.cons_ne_nil _ _)
    rfl

theorem syncReceipts_result_defaults_witness :
    ∃ i d k e,
      (syncReceipts wSyncEnv wIdleState).1
          = .ok (.imported true i d k e
              (failedBarcodes wSyncEnv wReceipts).length) ∧
      ((wImportResp.getField "imported").isNullish = true →
        i = .num (successfulDetails wSyncEnv wReceipts).length) ∧
      ((wImportResp.getField "duplicates").isNullish = true → d = .num 0) ∧
      ((wImportResp.getField "skipped").isNullish = true → k = .num 0) ∧
      ((wImportResp.getField "errors").isNullish = true → e = .num 0) ∧
      (∀ l, wImportResp.getField "errors" = .arr l → e = .num l.length) :=
  syncReceipts_result_defaults wSyncEnv wIdleState wReceipts wImportResp
    rfl rfl
    (by rw [show successfulDetails wSyncEnv wReceipts
          = [wDetailA, wDetailC] from rfl]
        exact List.cons_ne_nil _ _)
    rfl

theorem submitted_payload_allow_listed_witness :
    objKeys (filterReceiptData wDetailA) = receiptAllowList ∧
    ∀ itemsList,
      (filterReceiptData wDetailA).getField "itemArray" = .arr itemsList →
      ∀ it ∈ itemsList, objKeys it = itemAllowList :=
  submitted_payload_allow_listed wSyncEnv wIdleState wBody
    (filterReceiptData wDetailA)
    (by rw [show (syncReceipts wSyncEnv wIdleState).2.2
          = listingEvents ++ (fetchLoop wSyncEnv 3 0 wReceipts).2.2
              ++ [.publish (some importingProgress), .importCall wBody]
              ++ [.publish none] from rfl]
        simp)
    (by rw [show wBody
          = [filterReceiptData wDetailA, filterReceiptData wDetailC] from rfl]
        exact List.mem_cons_self _ _)

/-- Environment for the `authenticatedFetch` instantiation: a 401 followed
by a 200. -/
def wAuthEnv : AuthEnv :=
  ⟨fun n => if n == 0 then .success ⟨false, 401, none, none⟩
            else .success ⟨true, 200, none, some (.obj [])⟩⟩

theorem authenticatedFetch_retry_policy_witness :
    authenticatedFetch wAuthEnv (some "token-1")
      = (.ok ⟨true, 200, none, some (.obj [])⟩, some "token-1",
         [.fetchAttempt "token-1", .wait 1000, .fetchAttempt "token-1"]) :=
  (authenticatedFetch_retry_policy wAuthEnv "token-1").2.2.2.1
    ⟨false, 401, none, none⟩ ⟨true, 200, none, some (.obj [])⟩
    rfl rfl rfl (by decide)

/-- A 422 validation response from the import endpoint. -/
def wResp422 : HttpResponse :=
  ⟨false, 422, some "application/json",
   some (.obj [("message", .str "The transactionBarcode field is required.")])⟩

/-- Environment whose single import request resolves to `wResp422`. -/
def wImportAuthEnv : AuthEnv := ⟨fun _ => .success wResp422⟩

theorem importFailure_classification_witness :
    (sendReceiptsToWarehouseMeals wImportAuthEnv (some "token-1")).1
        = .error (importFailureMessage wResp422) ∧
    importFailureMessage wResp422
        = "Validation failed: "
            ++ "The transactionBarcode field is required." := by
  have h := importFailure_classification wImportAuthEnv (some "token-1")
    wResp422 (some "token-1") [.fetchAttempt "token-1"] rfl rfl
  exact ⟨h.1, h.2.2.2.2.1 _ rfl rfl rfl rfl⟩

theorem channel_correlation_and_disconnect_witness :
    portResponseListener "abc123"
        (.obj [("id", .str "zzz"), ("result", .num 7)]) = none ∧
    portResponseListener "abc123"
        (.obj [("id", .str "abc123"), ("error", .str "boom")])
      = some (.error "boom") ∧
    portResponseListener "abc123"
        (.obj [("id", .str "abc123"), ("result", .num 7)])
      = some (.ok (.num 7)) ∧
    (handlePortDisconnect ⟨[(1, 10), (2, 20)], [("abc123", 5)]⟩ 1).pending
      = [("abc123", 5)] ∧
    (handlePortDisconnect ⟨[(1, 10), (2, 20)], [("abc123", 5)]⟩ 1).ports
      = [(2, 20)] := by
  have h := channel_correlation_and_disconnect
  refine ⟨h.1 "abc123" _ rfl, h.2.1 "abc123" _ rfl rfl,
    h.2.2.1 "abc123" _ rfl rfl, h.2.2.2.1 _ 1, ?_⟩
  rw [h.2.2.2.2 ⟨[(1, 10), (2, 20)], [("abc123", 5)]⟩ 1]
  rfl

end WarehouseMeals
